import Mathlib

/-!
Shallow embedding of the location-proximity geofencing services:
the `POST /location` handler of the location service
(src/user-service/server.js, second service in the file, lines 180-258)
and the `GET /geofences` handler of the geofence service
(src/unnamed/part_000, lines 94-102).

Coordinates and distances are modelled over the rationals.  The external
`turf.distance` routine is an abstract parameter `Dist` of the engine: the
handler only compares its result against the fence radius, so every claim
about the handler is parametric in it.  The spec-level great-circle
distance (GeoMath.distanceMeters, delegated to the turf library and not
part of src/) is modelled separately over the reals.
-/

namespace Geofence

/-- Per-user containment status, the values stored in the in-memory
`userStates` map of the location service. -/
inductive Status where
  | inside
  | outside
  | unknown
deriving DecidableEq, Repr

/-- Transition classification computed by the handler. -/
inductive Trigger where
  | enter
  | exit
  | none
deriving DecidableEq, Repr

/-- A coordinate as supplied by clients and stored in fences:
`[latitude, longitude]`. -/
abbrev Coordinate := ℚ × ℚ

/-- The handler builds turf points as `turf.point([x[1], x[0]])`, i.e. it
swaps a `[lat, lon]` pair into `(longitude, latitude)` order. -/
def toPoint (c : Coordinate) : ℚ × ℚ := (c.2, c.1)

/-- A geofence record as created by `POST /geofences`
(src/unnamed/part_000, lines 72-78). -/
structure Fence where
  id : Nat
  userId : Nat
  name : String
  center : Coordinate
  radius : ℚ
deriving DecidableEq, Repr

/-- Abstract distance oracle standing for `turf.distance` with
`units: meters`, applied to two turf points. -/
abbrev Dist := (ℚ × ℚ) → (ℚ × ℚ) → ℚ

/-- The distance the handler computes between a reported coordinate and a
fence center: `turf.distance(userPoint, fenceCenter)` where both points
are built with the `[1], [0]` swap (server.js lines 207, 214, 217). -/
def distanceMeters (d : Dist) (a b : Coordinate) : ℚ :=
  d (toPoint a) (toPoint b)

/-- The containment test the fence loop applies to each fence:
`distance <= fence.radius` (server.js line 219). -/
def isWithin (d : Dist) (p : Coordinate) (f : Fence) : Bool :=
  decide (distanceMeters d p f.center ≤ f.radius)

/-- The fence loop of the handler (server.js lines 209-224): starting
from `isInsideAnyFence = false`, `fenceId = null`, test each fence in
order and `break` on the first match.  Returns
`(isInsideAnyFence, fenceId)`. -/
def scanFences (d : Dist) (p : Coordinate) : List Fence → Bool × Option Nat
  | [] => (false, Option.none)
  | f :: rest =>
      if distanceMeters d p f.center ≤ f.radius then (true, some f.id)
      else scanFences d p rest

/-- The GET /geofences handler (src/unnamed/part_000, lines 94-102):
filter the insertion-ordered fence array by owner. -/
def listFences (geofences : List Fence) (userId : Nat) : List Fence :=
  geofences.filter (fun f => f.userId == userId)

/-- JSON values, as far as the request's `location` field can carry
them. -/
inductive JVal where
  | jnull
  | jbool (b : Bool)
  | jnum (q : ℚ)
  | jstr (s : String)
  | jarr (xs : List JVal)

/-- JavaScript truthiness of a JSON value (arrays are always truthy). -/
def jsTruthy : JVal → Bool
  | .jnull => false
  | .jbool b => b
  | .jnum q => decide (q ≠ 0)
  | .jstr s => !s.isEmpty
  | .jarr _ => true

/-- The `Array.isArray` test. -/
def isArray : JVal → Bool
  | .jarr _ => true
  | _ => false

/-- The `.length` of an array (only consulted after `Array.isArray`). -/
def jlength : JVal → Nat
  | .jarr xs => xs.length
  | _ => 0

/-- Server.js line 186: the request is rejected when
`!location || !Array.isArray(location) || location.length !== 2`;
`validLocation` is the negation, i.e. the guard being passed.  An absent
field is `Option.none`. -/
def validLocation : Option JVal → Bool
  | Option.none => false
  | some v => jsTruthy v && isArray v && decide (jlength v = 2)

/-- Reading a location element off as a number; `turf.point` rejects
coordinate entries that are not numbers, which the surrounding
`try/catch` turns into a 500 response. -/
def toQ : JVal → Option ℚ
  | .jnum q => some q
  | _ => Option.none

/-- Error outcomes of the handler: the 400 response for a malformed
`location` (line 187), and the 500 responses of the `catch` block for a
failed fence lookup respectively any other internal throw (line 256). -/
inductive EvalError where
  | validationError
  | dependencyError
  | internalError
deriving DecidableEq, Repr

/-- The JSON body of a successful response (server.js lines 246-250). -/
structure TransitionResult where
  trigger : Trigger
  status : Status
  fenceId : Option Nat
deriving DecidableEq, Repr

/-- The `userStates` map: userId to recorded status; a key never written
reads as absent, and the handler defaults an absent key to `unknown`. -/
abbrev StateStore := Nat → Option Status

/-- Server.js lines 226-250: the synchronous state-change-detection
block.  It reads the previous status (defaulting to `unknown`), computes
the trigger, overwrites the user's entry with `currentStatus`, and forms
the response body.  The block contains no `await`, so under Node's
run-to-completion semantics it executes atomically. -/
def stateUpdate (userId : Nat) (isInsideAnyFence : Bool) (fenceId : Option Nat)
    (states : StateStore) : TransitionResult × StateStore :=
  let currentStatus := if isInsideAnyFence then Status.inside else Status.outside
  let previousStatus := (states userId).getD Status.unknown
  let trigger :=
    if currentStatus = Status.inside ∧ previousStatus ≠ Status.inside then Trigger.enter
    else if currentStatus = Status.outside ∧ previousStatus = Status.inside then Trigger.exit
    else Trigger.none
  (⟨trigger, currentStatus, if trigger = Trigger.enter then fenceId else Option.none⟩,
    fun v => if v = userId then some currentStatus else states v)

/-- The `POST /location` handler (server.js lines 180-258).
`lookup = Option.none` models the axios call to the geofence service
throwing (service down, timeout); `some geofences` models a successful
lookup.  The guard of line 186 runs first; the lookup precedes any use
of the location elements; `turf.point` throwing on non-numeric elements
is caught as an internal 500; otherwise the fence loop and the
state-change-detection block run. -/
def postLocation (d : Dist) (lookup : Option (List Fence)) (states : StateStore)
    (userId : Nat) (location : Option JVal) :
    Except EvalError TransitionResult × StateStore :=
  if validLocation location then
    match lookup with
    | Option.none => (Except.error EvalError.dependencyError, states)
    | some geofences =>
        match location with
        | some (JVal.jarr [a, b]) =>
            match toQ a, toQ b with
            | some lat, some lng =>
                let scanned := scanFences d (lat, lng) geofences
                let out := stateUpdate userId scanned.1 scanned.2 states
                (Except.ok out.1, out.2)
            | _, _ => (Except.error EvalError.internalError, states)
        | _ => (Except.error EvalError.internalError, states)
  else (Except.error EvalError.validationError, states)

/-- A distance oracle used in concrete witnesses: the distance is the
latitude of the second point (fence centers can then be chosen to force
a match or a miss). -/
def dLat : Dist := fun _ c => c.2

/-- The all-zero distance oracle used in concrete witnesses. -/
def dZero : Dist := fun _ _ => 0

/-- The empty state store: no user has been recorded yet. -/
def emptyStates : StateStore := fun _ => Option.none

/- ------------------------------------------------------------------ -/
/- Helper lemmas                                                       -/
/- ------------------------------------------------------------------ -/

theorem toQ_eq_some {a : JVal} {q : ℚ} : toQ a = some q ↔ a = JVal.jnum q := by
  cases a <;> simp [toQ]

theorem validLocation_iff (loc : Option JVal) :
    validLocation loc = true ↔ ∃ a b, loc = some (JVal.jarr [a, b]) := by
  cases loc with
  | none => simp [validLocation]
  | some v =>
      cases v with
      | jarr xs =>
          simp only [validLocation, jsTruthy, isArray, jlength, Bool.true_and,
            decide_eq_true_eq, Option.some.injEq, JVal.jarr.injEq]
          exact List.length_eq_two
      | jnull => simp [validLocation, jsTruthy]
      | jbool b => cases b <;> simp [validLocation, jsTruthy, isArray]
      | jnum q => simp [validLocation, isArray]
      | jstr s => simp [validLocation, isArray]

theorem scanFences_cons_match (d : Dist) (p : Coordinate) (f : Fence)
    (rest : List Fence) (h : isWithin d p f = true) :
    scanFences d p (f :: rest) = (true, some f.id) := by
  rw [isWithin, decide_eq_true_eq] at h
  simp [scanFences, h]

theorem scanFences_no_match (d : Dist) (p : Coordinate) :
    ∀ l : List Fence, (∀ g ∈ l, isWithin d p g = false) →
      scanFences d p l = (false, Option.none) := by
  intro l
  induction l with
  | nil => intro _; rfl
  | cons g t ih =>
      intro h
      have hg := h g (List.mem_cons_self g t)
      rw [isWithin, decide_eq_false_iff_not] at hg
      rw [scanFences, if_neg hg]
      exact ih fun x hx => h x (List.mem_cons_of_mem g hx)

theorem scanFences_append_no_match (d : Dist) (p : Coordinate) :
    ∀ pre : List Fence, (∀ g ∈ pre, isWithin d p g = false) →
      ∀ rest : List Fence, scanFences d p (pre ++ rest) = scanFences d p rest := by
  intro pre
  induction pre with
  | nil => intro _ rest; rfl
  | cons g t ih =>
      intro h rest
      have hg := h g (List.mem_cons_self g t)
      rw [isWithin, decide_eq_false_iff_not] at hg
      rw [List.cons_append, scanFences, if_neg hg]
      exact ih (fun x hx => h x (List.mem_cons_of_mem g hx)) rest

/- ------------------------------------------------------------------ -/
/- Claim theorems                                                      -/
/- ------------------------------------------------------------------ -/

/-- C3: the containment test applied by the fence loop is true exactly
when the computed distance between the reported point and the fence
center is at most the radius; exact equality with the radius counts as
inside (closed disk), and the loop branches on precisely this test. -/
theorem c3_isWithin_closed_disk (d : Dist) (p : Coordinate) (f : Fence) :
    (isWithin d p f = true ↔ distanceMeters d p f.center ≤ f.radius) ∧
    (distanceMeters d p f.center = f.radius → isWithin d p f = true) ∧
    (∀ rest, scanFences d p (f :: rest)
        = if isWithin d p f then (true, some f.id) else scanFences d p rest) := by
  refine ⟨by simp [isWithin], fun h => by simp [isWithin, h.le], fun rest => ?_⟩
  by_cases hd : distanceMeters d p f.center ≤ f.radius
  · simp [scanFences, isWithin, hd]
  · simp [scanFences, isWithin, hd]

/-- Witness for C3 at a concrete boundary input: distance equal to the
radius is classified as inside. -/
theorem c3_isWithin_closed_disk_witness :
    isWithin dZero (0, 0) ⟨1, 7, "home", (0, 0), 0⟩ = true :=
  (c3_isWithin_closed_disk dZero (0, 0) ⟨1, 7, "home", (0, 0), 0⟩).2.1 rfl

/-- C4: the fence loop tests fences in provider order and the first
match determines the reported fence id, ignoring every later fence; with
no match it reports `(false, none)`.  The provider (GET /geofences)
returns an order-preserving sublist of the insertion-ordered store,
containing exactly the caller's fences. -/
theorem c4_first_match_wins (d : Dist) (p : Coordinate)
    (pre post l db : List Fence) (f : Fence) (u : Nat)
    (h1 : ∀ g ∈ pre, isWithin d p g = false)
    (h2 : isWithin d p f = true)
    (h3 : ∀ g ∈ l, isWithin d p g = false) :
    scanFences d p (pre ++ f :: post) = (true, some f.id) ∧
    scanFences d p l = (false, Option.none) ∧
    List.Sublist (listFences db u) db ∧
    (∀ g ∈ listFences db u, g.userId = u) := by
  refine ⟨?_, scanFences_no_match d p l h3, List.filter_sublist db, ?_⟩
  · rw [scanFences_append_no_match d p pre h1, scanFences_cons_match d p f post h2]
  · intro g hg
    rw [listFences, List.mem_filter] at hg
    exact beq_iff_eq.mp hg.2

/-- Witness for C4 at concrete inputs: a non-matching fence before the
match, and a later fence that would also match but is never consulted. -/
theorem c4_first_match_wins_witness :
    scanFences dLat (0, 0)
        ([⟨1, 7, "far", (5, 0), 1⟩] ++ (⟨2, 7, "hit", (0, 0), 1⟩ : Fence)
          :: [⟨3, 7, "late", (0, 0), 1⟩]) = (true, some 2) ∧
    scanFences dLat (0, 0) [⟨1, 7, "far", (5, 0), 1⟩] = (false, Option.none) := by
  have h := c4_first_match_wins dLat (0, 0)
    [⟨1, 7, "far", (5, 0), 1⟩] [⟨3, 7, "late", (0, 0), 1⟩]
    [⟨1, 7, "far", (5, 0), 1⟩] [] ⟨2, 7, "hit", (0, 0), 1⟩ 7
    (by decide) (by decide) (by decide)
  exact ⟨h.1, h.2.1⟩

/-- C2: when the fence lookup fails, the handler answers with the
dependency error from its catch block and the state store is returned
untouched: no write happens and every user's recorded value, in
particular the caller's, is unchanged. -/
theorem c2_dependency_failure_preserves_state (d : Dist) (states : StateStore)
    (userId : Nat) (location : Option JVal)
    (h : validLocation location = true) :
    postLocation d Option.none states userId location
      = (Except.error EvalError.dependencyError, states) := by
  simp [postLocation, h]

/-- Witness for C2 at a concrete input. -/
theorem c2_dependency_failure_preserves_state_witness :
    postLocation dZero Option.none emptyStates 1
        (some (JVal.jarr [JVal.jnum 0, JVal.jnum 0]))
      = (Except.error EvalError.dependencyError, emptyStates) :=
  c2_dependency_failure_preserves_state dZero emptyStates 1
    (some (JVal.jarr [JVal.jnum 0, JVal.jnum 0])) rfl

/-- C5 counterexample: a report whose latitude 999 is far outside
[-90, 90] is not rejected: the handler runs to completion, produces a
transition result, and writes `outside` into the caller's state, where
the claim demands a validation failure with no state write and no
result. -/
theorem c5_counterexample :
    (postLocation dZero (some []) emptyStates 1
        (some (JVal.jarr [JVal.jnum 999, JVal.jnum 0]))).1
      = Except.ok ⟨Trigger.none, Status.outside, Option.none⟩ ∧
    (postLocation dZero (some []) emptyStates 1
        (some (JVal.jarr [JVal.jnum 999, JVal.jnum 0]))).2 1
      = some Status.outside := ⟨rfl, rfl⟩

/-- C5 as amended: the handler fails with the validation error, leaving
the state store untouched and producing no transition result, exactly
when the location is absent, not an array, or not of length two;
coordinate ranges are never checked. -/
theorem c5_amended_shape_validation (d : Dist) (lookup : Option (List Fence))
    (states : StateStore) (userId : Nat) (location : Option JVal)
    (h : validLocation location = false) :
    postLocation d lookup states userId location
      = (Except.error EvalError.validationError, states) := by
  simp [postLocation, h]

/-- Witness for the amended C5 at a concrete input: an absent location. -/
theorem c5_amended_shape_validation_witness :
    postLocation dZero (some []) emptyStates 1 Option.none
      = (Except.error EvalError.validationError, emptyStates) :=
  c5_amended_shape_validation dZero (some []) emptyStates 1 Option.none rfl

/-- C9: a call for one user never touches another user's recorded
state, whichever way the call ends (validation failure, lookup failure,
internal failure, or success). -/
theorem c9_frame_other_users (d : Dist) (lookup : Option (List Fence))
    (states : StateStore) (userId : Nat) (location : Option JVal)
    (v : Nat) (hv : v ≠ userId) :
    (postLocation d lookup states userId location).2 v = states v := by
  unfold postLocation
  split
  · split
    · rfl
    · split
      · split
        · simp [stateUpdate, hv]
        · rfl
      · rfl
  · rfl

/-- Witness for C9 at a concrete input: user 2 is untouched by a
successful call for user 1. -/
theorem c9_frame_other_users_witness :
    (postLocation dZero (some []) emptyStates 1
        (some (JVal.jarr [JVal.jnum 0, JVal.jnum 0]))).2 2 = emptyStates 2 :=
  c9_frame_other_users dZero (some []) emptyStates 1
    (some (JVal.jarr [JVal.jnum 0, JVal.jnum 0])) 2 (by decide)

theorem postLocation_validationError_iff (d : Dist) (lookup : Option (List Fence))
    (states : StateStore) (userId : Nat) (location : Option JVal) :
    (postLocation d lookup states userId location).1
        = Except.error EvalError.validationError
      ↔ validLocation location = false := by
  unfold postLocation
  split
  · next hv =>
      simp only [hv]
      split
      · simp
      · split
        · split
          · simp
          · simp
        · simp
  · next hv =>
      simp only [Bool.not_eq_true] at hv
      simp [hv]

theorem postLocation_ok_inv {d : Dist} {lookup : Option (List Fence)}
    {states : StateStore} {userId : Nat} {location : Option JVal}
    {r : TransitionResult} {states' : StateStore}
    (h : postLocation d lookup states userId location = (Except.ok r, states')) :
    ∃ gfs lat lng,
      lookup = some gfs ∧
      location = some (JVal.jarr [JVal.jnum lat, JVal.jnum lng]) ∧
      r = (stateUpdate userId (scanFences d (lat, lng) gfs).1
            (scanFences d (lat, lng) gfs).2 states).1 ∧
      states' = (stateUpdate userId (scanFences d (lat, lng) gfs).1
            (scanFences d (lat, lng) gfs).2 states).2 := by
  unfold postLocation at h
  split at h
  · split at h
    · exact absurd h (by simp)
    · split at h
      · split at h
        · next lat lng hta htb =>
            rw [Prod.mk.injEq, Except.ok.injEq] at h
            obtain ⟨hr, hs⟩ := h
            exact ⟨_, lat, lng, rfl,
              by rw [toQ_eq_some.mp hta, toQ_eq_some.mp htb],
              hr.symm, hs.symm⟩
        · exact absurd h (by simp)
      · exact absurd h (by simp)
  · exact absurd h (by simp)

theorem postLocation_snd_cases (d : Dist) (lookup : Option (List Fence))
    (states : StateStore) (userId : Nat) (location : Option JVal) :
    (postLocation d lookup states userId location).2 = states ∨
    ∃ st, (st = Status.inside ∨ st = Status.outside) ∧
      (postLocation d lookup states userId location).2
        = fun v => if v = userId then some st else states v := by
  unfold postLocation
  split
  · split
    · exact Or.inl rfl
    · next gfs =>
        split
        · split
          · next lat lng hta htb =>
              refine Or.inr ⟨if (scanFences d (lat, lng) gfs).1
                then Status.inside else Status.outside, ?_, rfl⟩
              cases hscan : (scanFences d (lat, lng) gfs).1 <;> simp [hscan]
          · exact Or.inl rfl
        · exact Or.inl rfl
  · exact Or.inl rfl

/-- C10: the handler answers with the validation error exactly when the
location is not a two-element array (absent, non-array, or wrong
length); every two-element array — numeric or not — passes the guard and
reaches the fence lookup (a failing lookup is observed as the dependency
error); and a two-element numeric array, whatever its values, runs to
completion, overwriting the caller's state with the reported status. -/
theorem c10_validation_gate :
    (∀ (d : Dist) (lookup : Option (List Fence)) (states : StateStore)
        (u : Nat) (loc : Option JVal),
        (postLocation d lookup states u loc).1
            = Except.error EvalError.validationError
          ↔ ¬ ∃ a b, loc = some (JVal.jarr [a, b])) ∧
    (∀ (d : Dist) (states : StateStore) (u : Nat) (a b : JVal),
        (postLocation d Option.none states u (some (JVal.jarr [a, b]))).1
          = Except.error EvalError.dependencyError) ∧
    (∀ (d : Dist) (gfs : List Fence) (states : StateStore) (u : Nat) (lat lng : ℚ),
        ∃ r, postLocation d (some gfs) states u
            (some (JVal.jarr [JVal.jnum lat, JVal.jnum lng]))
          = (Except.ok r, fun v => if v = u then some r.status else states v)) := by
  refine ⟨fun d lookup states u loc => ?_, fun d states u a b => ?_,
    fun d gfs states u lat lng => ?_⟩
  · rw [postLocation_validationError_iff]
    constructor
    · intro h hex
      have hvt := (validLocation_iff loc).2 hex
      rw [hvt] at h
      exact absurd h (by simp)
    · intro h
      cases hb : validLocation loc
      · rfl
      · exact absurd ((validLocation_iff loc).1 hb) h
  · rfl
  · exact ⟨(stateUpdate u (scanFences d (lat, lng) gfs).1
      (scanFences d (lat, lng) gfs).2 states).1, rfl⟩

/-- C1: on every evaluation that produces a result, the trigger is
enter exactly when the previously recorded status was not inside and the
reported status is inside, exit exactly when the previous status was
inside and the reported one outside, none in every other case; and the
reported status is exactly the value just written into the caller's
entry of the state store. -/
theorem c1_trigger_classification (d : Dist) (lookup : Option (List Fence))
    (states : StateStore) (userId : Nat) (location : Option JVal)
    (r : TransitionResult) (states' : StateStore)
    (h : postLocation d lookup states userId location = (Except.ok r, states')) :
    (r.trigger = Trigger.enter ↔
      ((states userId).getD Status.unknown ≠ Status.inside ∧
        r.status = Status.inside)) ∧
    (r.trigger = Trigger.exit ↔
      ((states userId).getD Status.unknown = Status.inside ∧
        r.status = Status.outside)) ∧
    (r.trigger = Trigger.none ↔
      (¬((states userId).getD Status.unknown ≠ Status.inside ∧
          r.status = Status.inside) ∧
       ¬((states userId).getD Status.unknown = Status.inside ∧
          r.status = Status.outside))) ∧
    states' userId = some r.status := by
  obtain ⟨gfs, lat, lng, -, -, hr, hs⟩ := postLocation_ok_inv h
  subst hr; subst hs
  cases hscan : (scanFences d (lat, lng) gfs).1 <;>
    cases hp : (states userId).getD Status.unknown <;>
      simp [stateUpdate, hscan, hp]

/-- Witness for C1 at a concrete input: a first report outside every
fence yields no trigger, status outside, and that status stored. -/
theorem c1_trigger_classification_witness :
    (Trigger.none = Trigger.enter ↔
      ((emptyStates 1).getD Status.unknown ≠ Status.inside ∧
        Status.outside = Status.inside)) ∧
    (Trigger.none = Trigger.exit ↔
      ((emptyStates 1).getD Status.unknown = Status.inside ∧
        Status.outside = Status.outside)) ∧
    (Trigger.none = Trigger.none ↔
      (¬((emptyStates 1).getD Status.unknown ≠ Status.inside ∧
          Status.outside = Status.inside) ∧
       ¬((emptyStates 1).getD Status.unknown = Status.inside ∧
          Status.outside = Status.outside))) ∧
    (postLocation dZero (some []) emptyStates 1
        (some (JVal.jarr [JVal.jnum 0, JVal.jnum 0]))).2 1
      = some Status.outside := by
  have h := c1_trigger_classification dZero (some []) emptyStates 1
    (some (JVal.jarr [JVal.jnum 0, JVal.jnum 0]))
    ⟨Trigger.none, Status.outside, Option.none⟩
    (postLocation dZero (some []) emptyStates 1
      (some (JVal.jarr [JVal.jnum 0, JVal.jnum 0]))).2 rfl
  exact h

/-- C7: the handler never writes `unknown`: a state entry that is not
`unknown` never becomes `unknown`, and every successful call leaves the
caller's entry set to the reported status, which is inside or outside —
so `unknown` only ever occurs as the initial, never-written default. -/
theorem c7_unknown_never_reentered (d : Dist) (lookup : Option (List Fence))
    (states : StateStore) (userId : Nat) (location : Option JVal)
    (res : Except EvalError TransitionResult) (states' : StateStore)
    (h : postLocation d lookup states userId location = (res, states')) :
    (∀ v, states v ≠ some Status.unknown → states' v ≠ some Status.unknown) ∧
    (∀ r, res = Except.ok r →
      states' userId = some r.status ∧
      (r.status = Status.inside ∨ r.status = Status.outside)) := by
  have hsnd : (postLocation d lookup states userId location).2 = states' := by
    rw [h]
  constructor
  · intro v hv
    rcases postLocation_snd_cases d lookup states userId location with
      hc | ⟨st, hst, hc⟩
    · rw [hc] at hsnd; rw [← hsnd]; exact hv
    · rw [hc] at hsnd; rw [← hsnd]
      by_cases hvu : v = userId
      · subst hvu
        simp only [if_pos rfl, Option.some.injEq]
        rcases hst with h1 | h1 <;> simp [h1]
      · simp only [if_neg hvu]
        exact hv
  · intro r hr
    subst hr
    obtain ⟨gfs, lat, lng, -, -, hrr, hss⟩ := postLocation_ok_inv h
    subst hrr; subst hss
    refine ⟨by simp [stateUpdate], ?_⟩
    cases hscan : (scanFences d (lat, lng) gfs).1 <;> simp [stateUpdate, hscan]

/-- Witness for C7 at a concrete input: after a first successful call
for user 1 reporting outside all fences, user 1's entry holds `outside`
and user 2's entry is still not `unknown`. -/
theorem c7_unknown_never_reentered_witness :
    ((postLocation dZero (some []) emptyStates 1
        (some (JVal.jarr [JVal.jnum 0, JVal.jnum 0]))).2 2
      ≠ some Status.unknown) ∧
    ((postLocation dZero (some []) emptyStates 1
        (some (JVal.jarr [JVal.jnum 0, JVal.jnum 0]))).2 1
      = some Status.outside) := by
  have h := c7_unknown_never_reentered dZero (some []) emptyStates 1
    (some (JVal.jarr [JVal.jnum 0, JVal.jnum 0]))
    (postLocation dZero (some []) emptyStates 1
      (some (JVal.jarr [JVal.jnum 0, JVal.jnum 0]))).1
    (postLocation dZero (some []) emptyStates 1
      (some (JVal.jarr [JVal.jnum 0, JVal.jnum 0]))).2 rfl
  exact ⟨h.1 2 (by simp [emptyStates]),
    (h.2 ⟨Trigger.none, Status.outside, Option.none⟩ rfl).1⟩

/- ------------------------------------------------------------------ -/
/- Concurrency model (C6)                                              -/
/- ------------------------------------------------------------------ -/

/-- One in-flight POST /location call.  Its containment outcome is a
function of its own reported point and its own fence snapshot only
(lines 204-224 touch no shared state), so it is carried as data; only
the state-change-detection block reads or writes `userStates`. -/
structure CallSpec where
  userId : Nat
  isInsideAnyFence : Bool
  fenceId : Option Nat

/-- Scheduling events of the Node event loop.  `look i` is call `i`'s
awaited fence lookup resolving — the only suspension point of the
handler, and it does not touch `userStates`.  `update i` is call `i`'s
synchronous state-change-detection block (lines 226-250) running; the
block contains no `await`, so under run-to-completion it is a single
indivisible event. -/
inductive Ev where
  | look (i : Nat)
  | update (i : Nat)

/-- Run an arbitrary interleaving of concurrent calls over the shared
state store, recording each call's transition result in completion
order. -/
def runTrace (calls : Nat → CallSpec) :
    List Ev → StateStore → StateStore × List (Nat × TransitionResult)
  | [], s => (s, [])
  | Ev.look _ :: t, s => runTrace calls t s
  | Ev.update i :: t, s =>
      let c := calls i
      let out := stateUpdate c.userId c.isInsideAnyFence c.fenceId s
      let rest := runTrace calls t out.2
      (rest.1, (i, out.1) :: rest.2)

/-- The serialization an interleaving induces: the order in which the
atomic update blocks ran. -/
def serializationOf : List Ev → List Nat
  | [] => []
  | Ev.look _ :: t => serializationOf t
  | Ev.update i :: t => i :: serializationOf t

/-- Fully sequential execution of calls in a given order. -/
def runSeq (calls : Nat → CallSpec) :
    List Nat → StateStore → StateStore × List (Nat × TransitionResult)
  | [], s => (s, [])
  | i :: t, s =>
      let c := calls i
      let out := stateUpdate c.userId c.isInsideAnyFence c.fenceId s
      let rest := runSeq calls t out.2
      (rest.1, (i, out.1) :: rest.2)

/-- C6: the read of the previous status, the trigger computation and the
write of the new status form the single `stateUpdate` event — under any
interleaving of concurrent calls, every execution (final store and every
call's observed result, so in particular every observed previous status)
is identical to the fully serialized execution in the order the update
blocks ran: no two calls for a user can read the same previous status
unless some serialized call in between wrote it again, and no update is
lost. -/
theorem c6_serializable (calls : Nat → CallSpec) (trace : List Ev)
    (s : StateStore) :
    runTrace calls trace s = runSeq calls (serializationOf trace) s := by
  induction trace generalizing s with
  | nil => rfl
  | cons e t ih =>
      cases e with
      | look i => simpa [runTrace, serializationOf] using ih s
      | update i => simp [runTrace, serializationOf, runSeq, ih]

/- ------------------------------------------------------------------ -/
/- Spec-level great-circle distance (C8)                               -/
/- ------------------------------------------------------------------ -/

/-- Modelled from the spec: GeoMath.distanceMeters, the great-circle
distance between two (latitude, longitude) coordinates in decimal
degrees, by the haversine formula on a sphere of mean radius
6371000 m — the standard spherical-earth approximation the spec
prescribes.  The deployment delegates this computation to the external
turf library, which is not part of src/. -/
noncomputable def distanceMetersSpherical (a b : ℝ × ℝ) : ℝ :=
  let hav := Real.sin (((b.1 - a.1) * Real.pi / 180) / 2) ^ 2 +
    Real.cos (a.1 * Real.pi / 180) * Real.cos (b.1 * Real.pi / 180) *
      Real.sin (((b.2 - a.2) * Real.pi / 180) / 2) ^ 2
  6371000 * (2 * Real.arctan (Real.sqrt hav / Real.sqrt (1 - hav)))

/-- C8: the spec-level great-circle distance is zero between equal
coordinates and symmetric in its two arguments. -/
theorem c8_distance_zero_and_symmetric (a b : ℝ × ℝ) :
    distanceMetersSpherical a a = 0 ∧
    distanceMetersSpherical a b = distanceMetersSpherical b a := by
  constructor
  · simp [distanceMetersSpherical]
  · unfold distanceMetersSpherical
    have h1 : Real.sin (((b.1 - a.1) * Real.pi / 180) / 2) ^ 2
        = Real.sin (((a.1 - b.1) * Real.pi / 180) / 2) ^ 2 := by
      rw [show ((b.1 - a.1) * Real.pi / 180) / 2
          = -(((a.1 - b.1) * Real.pi / 180) / 2) by ring]
      rw [Real.sin_neg, neg_sq]
    have h2 : Real.sin (((b.2 - a.2) * Real.pi / 180) / 2) ^ 2
        = Real.sin (((a.2 - b.2) * Real.pi / 180) / 2) ^ 2 := by
      rw [show ((b.2 - a.2) * Real.pi / 180) / 2
          = -(((a.2 - b.2) * Real.pi / 180) / 2) by ring]
      rw [Real.sin_neg, neg_sq]
    rw [h1, h2, mul_comm (Real.cos (a.1 * Real.pi / 180))]

end Geofence
